import Mathlib

/-!
Verification of the von-image build script (`make_image.py`).

The script resolves a predefined version entry plus CLI overrides into a
docker image tag and a merged build-argument mapping, then either rewrites a
Dockerfile template (`--output` mode) or assembles and runs a sequence of
external `docker` commands.  We embed the script shallowly: the catalog and
the pure resolution logic become Lean functions, file contents and external
exit codes become explicit oracle parameters, and Python exceptions become
`Except` errors.
-/

namespace VonImage

/-- One entry of the `VERSIONS` catalog: optional version label, optional
target-path override, optional python version, and the catalog build args. -/
structure VersionEntry where
  version : Option String
  path : Option String
  python_version : Option String
  args : List (String × String)
deriving DecidableEq

/-- The `VERSIONS` catalog from the top of `make_image.py`, as an association
list preserving the source's entry order. -/
def VERSIONS : List (String × VersionEntry) :=
  [ ("dev-441",
     { version := some "indy1.3.1-dev-441-ew", path := none, python_version := none,
       args :=
        [ ("indy_sdk_repo", "https://github.com/bcgov/indy-sdk.git"),
          ("indy_sdk_rev", "574ca3a881d188c3fd7400d27acbe5edc4c7f666"),
          ("indy_crypto_repo", "https://github.com/hyperledger/indy-crypto.git"),
          ("indy_crypto_rev", "96c79b36c5056eade5a8e3bae418f5a733cc8d8d") ] }),
    ("1.0",
     { version := some "1.0rc3", path := none, python_version := none,
       args :=
        [ ("indy_sdk_url", "https://codeload.github.com/ianco/indy-sdk/tar.gz/50ede4563a6a303b09d78ca97d3238e6c10333f6"),
          ("indy_crypto_url", "https://codeload.github.com/hyperledger/indy-crypto/tar.gz/96c79b36c5056eade5a8e3bae418f5a733cc8d8d") ] }),
    ("1.0std",
     { version := none, path := some "1.0", python_version := none,
       args :=
        [ ("indy_sdk_url", "https://codeload.github.com/hyperledger/indy-sdk/tar.gz/e0ef8889e9f3b9abd706628fe259f56501d492d9"),
          ("indy_crypto_url", "https://codeload.github.com/hyperledger/indy-crypto/tar.gz/96c79b36c5056eade5a8e3bae418f5a733cc8d8d") ] }),
    ("1.5",
     { version := some "1.5-0", path := none, python_version := none,
       args :=
        [ ("indy_sdk_url", "https://codeload.github.com/hyperledger/indy-sdk/tar.gz/16c637cbe855c46bf1d3a869e9ebcfc99bb9aabf"),
          ("indy_crypto_url", "https://codeload.github.com/hyperledger/indy-crypto/tar.gz/9586d6a24f53f2aa0621249f2266d0f129253c48") ] }),
    ("1.6",
     { version := some "1.6-11", path := none, python_version := none,
       args :=
        [ ("indy_sdk_url", "https://codeload.github.com/hyperledger/indy-sdk/tar.gz/5a37407baaf756b3c4f5cac802717dc4a2bd1660"),
          ("indy_crypto_url", "https://codeload.github.com/hyperledger/indy-crypto/tar.gz/a2864642430064c6f00902e9b999cc6356eed9f1") ] }),
    ("1.6-ew",
     { version := some "1.6-ew-11", path := none, python_version := none,
       args :=
        [ ("indy_sdk_url", "https://codeload.github.com/bcgov/indy-sdk/tar.gz/88424a10f53a7e47c49143b9866a0d531c1d9420"),
          ("indy_crypto_url", "https://codeload.github.com/hyperledger/indy-crypto/tar.gz/a2864642430064c6f00902e9b999cc6356eed9f1") ] }) ]

def DEFAULT_NAME : String := "bcgovimages/von-image"

def PY_35_VERSION : String := "3.5.5"

def PY_36_VERSION : String := "3.6.7"

/-- Catalog lookup: `VERSIONS[args.version]`. -/
def lookupVersion (v : String) : Option VersionEntry :=
  (VERSIONS.find? (fun p => p.1 = v)).map Prod.snd

/-- Python `str.split(sep, maxsplit)` on character lists: split at the first
`maxs` occurrences of `sep`, leaving the remainder intact. -/
def pySplitCh (sep : Char) : Nat → List Char → List (List Char)
  | _, [] => [[]]
  | 0, cs => [cs]
  | Nat.succ m, c :: rest =>
    if c = sep then
      [] :: pySplitCh sep m rest
    else
      match pySplitCh sep (Nat.succ m) rest with
      | [] => [[c]]
      | h :: t => (c :: h) :: t

/-- Python `s.split(sep, maxsplit)` on strings. -/
def pySplit (s : String) (sep : Char) (maxs : Nat) : List String :=
  (pySplitCh sep maxs s.data).map String.mk

/-- Python tuple unpacking `x, y = lst`: succeeds exactly when the list has
two elements, otherwise raises `ValueError` (modelled as `none`). -/
def unpack2 (l : List String) : Option (String × String) :=
  match l with
  | [a, b] => some (a, b)
  | _ => none

/-- The unpacking `key, val = arg.split('=', 2)` of one `--build-arg` token. -/
def parseBuildArg (tok : String) : Option (String × String) :=
  unpack2 (pySplit tok '=' 2)

/-- The unpacking `tag_name, tag_version = tag.split(':', 2)` of an explicit
`--tag`. -/
def parseTag (t : String) : Option (String × String) :=
  unpack2 (pySplit t ':' 2)

/-- Python dict assignment `m[k] = v`: replace the value at an existing key
in place, or append a new key at the end (insertion order preserved). -/
def setKey : List (String × String) → String → String → List (String × String)
  | [], k, v => [(k, v)]
  | p :: ps, k, v => if p.1 = k then (k, v) :: ps else p :: setKey ps k v

/-- Python dict lookup `m.get(k)`: value at the first matching key. -/
def getArg : List (String × String) → String → Option String
  | [], _ => none
  | p :: ps, k => if p.1 = k then some p.2 else getArg ps k

/-- The parsed command line of `make_image.py` (defaults as in `argparse`). -/
structure Args where
  name : String
  tag : Option String
  file : Option String
  buildArg : List String
  debug : Bool
  dryRun : Bool
  noCache : Bool
  output : Option String
  python : Option String
  push : Bool
  quiet : Bool
  s2i : Bool
  squash : Bool
  test : Bool
  version : String
deriving DecidableEq

/-- The argparse defaults: only the positional version is supplied. -/
def defaultArgs (version : String) : Args :=
  { name := DEFAULT_NAME, tag := none, file := none, buildArg := [],
    debug := false, dryRun := false, noCache := false, output := none,
    python := none, push := false, quiet := false, s2i := false,
    squash := false, test := false, version := version }

/-- The fatal resolution errors: argparse rejecting an unknown version
choice, and the `ValueError` raised by two-variable unpacking of a bad
`--build-arg` token or a bad explicit tag. -/
inductive ResolveError
  | unknownVersion (v : String)
  | badBuildArg (tok : String)
  | badTag (t : String)
deriving DecidableEq

/-- The fully resolved build plan: target directory, Dockerfile path, tag
components, full tag, merged build-argument mapping and python version. -/
structure Plan where
  target : String
  dockerfile : String
  tagName : String
  tagVersion : String
  tag : String
  buildArgs : List (String × String)
  pyVer : String
deriving DecidableEq

/-- Lines 106-112: `build_args` populated with the catalog args and the
derived args (python version, tag name, tag version, and the release flag
when not in debug mode). -/
def baseMerge (a : Args) (ver : VersionEntry) (py tn tv : String) :
    List (String × String) :=
  let b1 := setKey ver.args "python_version" py
  let b2 := setKey b1 "tag_name" tn
  let b3 := setKey b2 "tag_version" tv
  if a.debug then b3 else setKey b3 "indy_build_flags" "--release"

/-- Lines 113-116: fold the user `--build-arg` tokens over the mapping, a
later assignment overwriting an earlier one; a token that does not unpack
into exactly two parts raises `ValueError`. -/
def applyUserArgs (m : List (String × String)) :
    List String → Except ResolveError (List (String × String))
  | [] => .ok m
  | t :: ts =>
    match parseBuildArg t with
    | none => .error (.badBuildArg t)
    | some kv => applyUserArgs (setKey m kv.1 kv.2) ts

/-- Assemble the plan once tag name/version are known (lines 106-116). -/
def mkPlanWithArgs (a : Args) (ver : VersionEntry)
    (py target dockerfile tn tv tag : String) : Except ResolveError Plan :=
  match applyUserArgs (baseMerge a ver py tn tv) a.buildArg with
  | .error e => .error e
  | .ok b =>
    .ok { target := target, dockerfile := dockerfile, tagName := tn,
          tagVersion := tv, tag := tag, buildArgs := b, pyVer := py }

/-- Line 88: `py_ver = args.python or ver.get('python_version', PY_35_VERSION)`. -/
def pyVerOf (a : Args) (ver : VersionEntry) : String :=
  match a.python with
  | some p => p
  | none => ver.python_version.getD PY_35_VERSION

/-- Line 90: `target = ver.get('path', args.version)`. -/
def targetOf (a : Args) (ver : VersionEntry) : String :=
  ver.path.getD a.version

/-- Lines 91-93: the default Dockerfile under the target directory unless a
custom one was given with `--file`. -/
def dockerfileOf (a : Args) (ver : VersionEntry) : String :=
  match a.file with
  | some f => f
  | none => targetOf a ver ++ "/Dockerfile.ubuntu"

/-- Lines 100-103: the derived tag version `py<major><minor>-<label>` with
the `-debug` suffix when in debug mode; the label is the catalog entry's
version field, or the version key itself when absent. -/
def tagVersionOf (a : Args) (ver : VersionEntry) : String :=
  "py" ++ (pyVerOf a ver).take 1 ++ ((pyVerOf a ver).drop 2).take 1 ++ "-" ++
    ver.version.getD a.version ++ (if a.debug then "-debug" else "")

/-- Lines 86-116 of `make_image.py`: version lookup, python-version and
target resolution, Dockerfile selection, tag computation and the merged
build-argument mapping. -/
def resolve (a : Args) : Except ResolveError Plan :=
  match lookupVersion a.version with
  | none => .error (.unknownVersion a.version)
  | some ver =>
    match a.tag with
    | some t =>
      match parseTag t with
      | none => .error (.badTag t)
      | some nv =>
        mkPlanWithArgs a ver (pyVerOf a ver) (targetOf a ver)
          (dockerfileOf a ver) nv.1 nv.2 t
    | none =>
      mkPlanWithArgs a ver (pyVerOf a ver) (targetOf a ver)
        (dockerfileOf a ver) a.name (tagVersionOf a ver)
        (a.name ++ ":" ++ tagVersionOf a ver)

instance {ε α : Type} [DecidableEq ε] [DecidableEq α] : DecidableEq (Except ε α)
  | .error a, .error b =>
    if h : a = b then .isTrue (by rw [h]) else .isFalse (by intro c; cases c; exact h rfl)
  | .error _, .ok _ => .isFalse (by intro c; cases c)
  | .ok _, .error _ => .isFalse (by intro c; cases c)
  | .ok a, .ok b =>
    if h : a = b then .isTrue (by rw [h]) else .isFalse (by intro c; cases c; exact h rfl)

/-- The `\s` character class of the pattern, over the ASCII range. -/
def isSpaceChar (c : Char) : Bool :=
  c = ' ' || c = '\t' || c = '\n' || c = '\x0b' || c = '\x0c' || c = '\r'

/-- The `\w` character class of the pattern, over the ASCII range. -/
def isWordChar (c : Char) : Bool :=
  c.isAlphanum || c = '_'

/-- Model of `re.match` with the pattern of line 130 on a line without its
trailing newline: literal `ARG`, then at least one whitespace character, a maximal
nonempty run of word characters as group 1, an optional `=`, and the rest of
the line as group 2.  The word and whitespace classes are disjoint from each
other and from `=`, so the greedy match needs no backtracking. -/
def matchArgLine (line : String) : Option (String × String) :=
  match line.data with
  | 'A' :: 'R' :: 'G' :: rest =>
    let ws := rest.takeWhile isSpaceChar
    if ws.isEmpty then none
    else
      let rest2 := rest.dropWhile isSpaceChar
      let w := rest2.takeWhile isWordChar
      if w.isEmpty then none
      else
        let rest3 := rest2.dropWhile isWordChar
        let rest4 := match rest3 with
          | '=' :: t => t
          | t => t
        some (String.mk w, String.mk rest4)
  | _ => none

/-- Lines 129-133: rewrite one template line.  A line matching the `ARG`
pattern becomes `ARG <name>=<value>` with the value taken from the
substitution mapping, falling back to the existing default; any other line
is written back unchanged. -/
def rewriteLine (repl : List (String × String)) (line : String) : String :=
  match matchArgLine line with
  | some nd => "ARG " ++ nd.1 ++ "=" ++ (getArg repl nd.1).getD nd.2
  | none => line

/-- The template-output loop applied to all lines of the source file. -/
def rewriteTemplate (repl : List (String × String)) (lines : List String) :
    List String :=
  lines.map (rewriteLine repl)

/-- Lines 137-138: render the merged mapping as `--build-arg` options, two
command-line tokens per entry, in mapping order. -/
def renderBuildArgs : List (String × String) → List String
  | [] => []
  | kv :: rest => "--build-arg" :: (kv.1 ++ "=" ++ kv.2) :: renderBuildArgs rest

/-- Lines 136-154: the argument vector of the base-image build
(`docker build` is prepended separately). -/
def cmdArgsBase (p : Plan) (a : Args) : List String :=
  renderBuildArgs p.buildArgs
    ++ (if p.dockerfile ≠ "" then ["-f", p.dockerfile ++ "_indy"] else [])
    ++ (if a.noCache then ["--no-cache"] else [])
    ++ (if a.squash then ["--squash"] else [])
    ++ ["-t", "local_indy_base"]
    ++ [p.target]

/-- Lines 136-155: the argument vector of the main-image build, including
the `CACHEBUST` build argument set to the random integer `n`. -/
def cmdArgsMain (p : Plan) (a : Args) (n : Nat) : List String :=
  renderBuildArgs p.buildArgs
    ++ (if p.dockerfile ≠ "" then ["-f", p.dockerfile ++ "_von"] else [])
    ++ (if a.noCache then ["--no-cache"] else [])
    ++ (if a.squash then ["--squash"] else [])
    ++ ["-t", p.tag]
    ++ ["--build-arg", "CACHEBUST=" ++ toString n]
    ++ [p.target]

/-- The delegated external steps whose failure aborts the run.  The
size-inspect step after the main build does not have its exit code checked
directly, but on failure its captured stdout is empty and the integer parse
of it raises, aborting with exit code 1 just like a checked step. -/
inductive Step
  | baseBuild
  | mainBuild
  | inspectSize
  | s2iBuild
  | testBuild
  | testRun
  | push
deriving DecidableEq

/-- What a run did: the delegated steps attempted in order, the process exit
code, the template file read (output mode), and the file written. -/
structure Outcome where
  ran : List Step
  exitCode : Nat
  readSrc : Option String
  wroteOutput : Option (String × List String)
deriving DecidableEq

/-- Execute steps in order against an oracle of exit codes, stopping with
exit code 1 at the first failing step; exit code 0 if all succeed. -/
def runSteps (res : Step → Nat) : List Step → List Step × Nat
  | [] => ([], 0)
  | s :: rest =>
    if res s ≠ 0 then ([s], 1)
    else
      let r := runSteps res rest
      (s :: r.1, r.2)

/-- The sequence of delegated steps of a non-dry, non-output run: base and
main builds with the size inspection (lines 160-172), the s2i build when
requested (lines 174-189), the test-image build and test run when testing or
pushing (lines 192-204), and the push (lines 206-211). -/
def plannedSteps (a : Args) : List Step :=
  [Step.baseBuild, Step.mainBuild, Step.inspectSize]
    ++ (if a.s2i then [Step.s2iBuild] else [])
    ++ (if a.test || a.push then [Step.testBuild, Step.testRun] else [])
    ++ (if a.push then [Step.push] else [])

/-- The whole script.  `files` is the filesystem oracle giving the lines of
a template file; `res` gives each delegated step's exit code.  Resolution
errors exit without attempting any step (argparse exits with code 2 on an
unknown version choice, an uncaught `ValueError` exits with code 1).  With
`--output`, the chosen template is rewritten and the run exits 0 without
delegating; the source template and substitution mapping depend on `--test`
and `--s2i` (lines 118-134).  A dry run only prints the command lines. -/
def run (a : Args) (files : String → List String) (res : Step → Nat) :
    Outcome :=
  match resolve a with
  | .error e =>
    { ran := [], exitCode := (match e with | .unknownVersion _ => 2 | _ => 1),
      readSrc := none, wroteOutput := none }
  | .ok p =>
    match a.output with
    | some outPath =>
      let sr : String × List (String × String) :=
        if a.test then (p.target ++ "/Dockerfile.test", [("base_image", p.tag)])
        else if a.s2i then (p.target ++ "/Dockerfile.s2i", [("base_image", p.tag)])
        else (p.dockerfile, p.buildArgs)
      { ran := [], exitCode := 0, readSrc := some sr.1,
        wroteOutput := some (outPath, rewriteTemplate sr.2 (files sr.1)) }
    | none =>
      if a.dryRun then
        { ran := [], exitCode := 0, readSrc := none, wroteOutput := none }
      else
        let r := runSteps res (plannedSteps a)
        { ran := r.1, exitCode := r.2, readSrc := none, wroteOutput := none }

/-! ### Properties of the max-split parsing -/

theorem pySplitCh_of_not_mem (sep : Char) (m : Nat) (cs : List Char)
    (h : sep ∉ cs) : pySplitCh sep m cs = [cs] := by
  induction cs generalizing m with
  | nil => cases m <;> rfl
  | cons c rest ih =>
    cases m with
    | zero => rfl
    | succ m =>
      have hc : ¬c = sep := fun hc => h (hc ▸ List.mem_cons_self c rest)
      simp only [pySplitCh, if_neg hc,
        ih (Nat.succ m) (fun hm => h (List.mem_cons_of_mem c hm))]

theorem pySplitCh_append (sep : Char) (m : Nat) (k rest : List Char)
    (h : sep ∉ k) :
    pySplitCh sep (Nat.succ m) (k ++ sep :: rest) = k :: pySplitCh sep m rest := by
  induction k with
  | nil => simp [pySplitCh]
  | cons c k ih =>
    have hc : ¬c = sep := fun hc => h (hc ▸ List.mem_cons_self c k)
    show pySplitCh sep (Nat.succ m) (c :: (k ++ sep :: rest)) =
      (c :: k) :: pySplitCh sep m rest
    simp only [pySplitCh, if_neg hc,
      ih (fun hm => h (List.mem_cons_of_mem c hm))]

theorem pySplitCh_zero (sep : Char) (cs : List Char) :
    pySplitCh sep 0 cs = [cs] := by
  cases cs <;> rfl

theorem data_append_char (k v : String) (c : Char) :
    (k ++ String.singleton c ++ v).data = k.data ++ c :: v.data := by
  simp [String.data_append, String.singleton]

theorem unpack2_split_one (sep : Char) (k v : String) (hk : sep ∉ k.data)
    (hv : sep ∉ v.data) :
    unpack2 (pySplit (k ++ String.singleton sep ++ v) sep 2) = some (k, v) := by
  unfold pySplit
  rw [data_append_char]
  have h2 : (2 : Nat) = 1 + 1 := rfl
  rw [h2, pySplitCh_append sep 1 k.data v.data hk,
    pySplitCh_of_not_mem sep 1 v.data hv]
  rfl

theorem unpack2_split_two (sep : Char) (k v w : String) (hk : sep ∉ k.data)
    (hv : sep ∉ v.data) :
    unpack2 (pySplit (k ++ String.singleton sep ++ v ++ String.singleton sep ++ w)
      sep 2) = none := by
  unfold pySplit
  have hd : (k ++ String.singleton sep ++ v ++ String.singleton sep ++ w).data
      = k.data ++ sep :: (v.data ++ sep :: w.data) := by
    simp [String.data_append, String.singleton]
  rw [hd]
  have h2 : (2 : Nat) = 1 + 1 := rfl
  have h1 : (1 : Nat) = 0 + 1 := rfl
  rw [h2, pySplitCh_append sep 1 k.data _ hk, h1,
    pySplitCh_append sep 0 v.data w.data hv, pySplitCh_zero]
  rfl

theorem unpack2_split_zero (sep : Char) (tok : String) (h : sep ∉ tok.data) :
    unpack2 (pySplit tok sep 2) = none := by
  unfold pySplit
  rw [pySplitCh_of_not_mem sep 2 tok.data h]
  rfl

theorem parseBuildArg_none_of_no_sep (tok : String) (h : '=' ∉ tok.data) :
    parseBuildArg tok = none :=
  unpack2_split_zero '=' tok h

/-- C7 counterexample: a `--build-arg` token whose value part contains an
`=` is not split at the first `=` with the remainder kept verbatim; the
three-way split fails the two-variable unpacking, so the token is rejected
(`ValueError`), and likewise for an explicit tag whose remainder contains a
`:`.  On the concrete inputs `K=a=b` and `a:b:c` the whole resolution
aborts instead of accepting the token. -/
theorem claim_C7_cex :
    parseBuildArg "K=a=b" = none ∧ parseTag "a:b:c" = none ∧
    resolve { defaultArgs "1.6" with buildArg := ["K=a=b"] } =
      .error (.badBuildArg "K=a=b") ∧
    resolve { defaultArgs "1.6" with tag := some "a:b:c" } =
      .error (.badTag "a:b:c") := by
  refine ⟨rfl, rfl, by decide, by decide⟩

/-- C7 amended: the build-arg and tag parses use a max-split count of 2,
so a token with exactly one occurrence of the separator is split there, the
text before it becoming the key/name and the remainder the value; but a
token containing a further separator occurrence splits into three parts and
the two-variable unpacking fails fatally, so a value containing `=` (or a
tag remainder containing `:`) is never accepted. -/
theorem claim_C7 :
    (∀ k v : String, '=' ∉ k.data → '=' ∉ v.data →
      parseBuildArg (k ++ "=" ++ v) = some (k, v) ∧
      ∀ w : String, parseBuildArg (k ++ "=" ++ v ++ "=" ++ w) = none) ∧
    (∀ n r : String, ':' ∉ n.data → ':' ∉ r.data →
      parseTag (n ++ ":" ++ r) = some (n, r) ∧
      ∀ w : String, parseTag (n ++ ":" ++ r ++ ":" ++ w) = none) := by
  constructor
  · intro k v hk hv
    refine ⟨unpack2_split_one '=' k v hk hv, fun w => ?_⟩
    exact unpack2_split_two '=' k v w hk hv
  · intro n r hn hr
    refine ⟨unpack2_split_one ':' n r hn hr, fun w => ?_⟩
    exact unpack2_split_two ':' n r w hn hr

/-- C7 witness: the amended statement at the concrete token `FOO=bar` and
the concrete tag `repo:v1`. -/
theorem claim_C7_witness :
    parseBuildArg ("FOO" ++ "=" ++ "bar") = some ("FOO", "bar") ∧
    parseBuildArg ("FOO" ++ "=" ++ "bar" ++ "=" ++ "baz") = none ∧
    parseTag ("repo" ++ ":" ++ "v1") = some ("repo", "v1") :=
  ⟨(claim_C7.1 "FOO" "bar" (by decide) (by decide)).1,
   (claim_C7.1 "FOO" "bar" (by decide) (by decide)).2 "baz",
   (claim_C7.2 "repo" "v1" (by decide) (by decide)).1⟩

/-! ### Properties of the mapping merge -/

theorem getArg_setKey (m : List (String × String)) (k v k2 : String) :
    getArg (setKey m k v) k2 = if k = k2 then some v else getArg m k2 := by
  induction m with
  | nil => simp [setKey, getArg]
  | cons p ps ih =>
    by_cases hp : p.1 = k
    · by_cases h : k = k2
      · simp [setKey, getArg, hp, h]
      · have hp2 : ¬p.1 = k2 := by rw [hp]; exact h
        simp [setKey, getArg, hp, h, hp2]
    · by_cases h1 : p.1 = k2
      · have h2 : ¬k = k2 := fun hh => hp (h1.trans hh.symm)
        have h2s : ¬k2 = k := fun hh => h2 hh.symm
        simp [setKey, getArg, hp, h1, h2, h2s]
      · simp [setKey, getArg, hp, h1, ih]

/-- The value the user `--build-arg` list assigns last to key `k`, if any. -/
def userLast (k : String) : List String → Option String
  | [] => none
  | t :: ts =>
    match userLast k ts with
    | some v => some v
    | none =>
      match parseBuildArg t with
      | some kv => if kv.1 = k then some kv.2 else none
      | none => none

theorem applyUserArgs_ok_getArg (toks : List String)
    (m b : List (String × String)) (k : String)
    (h : applyUserArgs m toks = .ok b) :
    getArg b k = match userLast k toks with
      | some v => some v
      | none => getArg m k := by
  induction toks generalizing m with
  | nil =>
    simp only [applyUserArgs] at h
    cases h
    simp [userLast]
  | cons t ts ih =>
    cases hp : parseBuildArg t with
    | none => simp [applyUserArgs, hp] at h
    | some kv =>
      simp only [applyUserArgs, hp] at h
      rw [ih _ h]
      cases hl : userLast k ts with
      | some v => simp [userLast, hl]
      | none =>
        simp only [userLast, hl, getArg_setKey, hp]
        by_cases hk : kv.1 = k <;> simp [hk]

theorem userLast_append (k : String) (xs ys : List String) :
    userLast k (xs ++ ys) = match userLast k ys with
      | some v => some v
      | none => userLast k xs := by
  induction xs with
  | nil =>
    cases hl : userLast k ys <;> simp [userLast, hl]
  | cons t ts ih =>
    show userLast k (t :: (ts ++ ys)) = _
    simp only [userLast, ih]
    cases hl : userLast k ys <;> cases h2 : userLast k ts <;> simp [hl, h2]

theorem userLast_eq_none (k : String) (l : List String)
    (h : ∀ t ∈ l, ∀ kv, parseBuildArg t = some kv → kv.1 ≠ k) :
    userLast k l = none := by
  induction l with
  | nil => rfl
  | cons t ts ih =>
    have hts := ih (fun t ht kv hp => h t (List.mem_cons_of_mem _ ht) kv hp)
    simp only [userLast, hts]
    cases hp : parseBuildArg t with
    | none => rfl
    | some kv =>
      have := h t (List.mem_cons_self _ _) kv hp
      simp [this]

theorem applyUserArgs_ok_parses (toks : List String)
    (m b : List (String × String)) (h : applyUserArgs m toks = .ok b) :
    ∀ t ∈ toks, parseBuildArg t ≠ none := by
  induction toks generalizing m with
  | nil => simp
  | cons t ts ih =>
    cases hp : parseBuildArg t with
    | none => simp [applyUserArgs, hp] at h
    | some kv =>
      simp only [applyUserArgs, hp] at h
      intro x hx
      rcases List.mem_cons.mp hx with hx | hx
      · rw [hx, hp]; intro c; cases c
      · exact ih _ h x hx

/-! ### Inversion of the resolver -/

theorem mkPlanWithArgs_ok (a : Args) (ver : VersionEntry)
    (py target dockerfile tn tv tag : String) (p : Plan)
    (h : mkPlanWithArgs a ver py target dockerfile tn tv tag = .ok p) :
    applyUserArgs (baseMerge a ver py tn tv) a.buildArg = .ok p.buildArgs ∧
    p.target = target ∧ p.dockerfile = dockerfile ∧ p.tagName = tn ∧
    p.tagVersion = tv ∧ p.tag = tag ∧ p.pyVer = py := by
  unfold mkPlanWithArgs at h
  split at h
  · cases h
  · cases h
    simp_all

theorem resolve_ok_buildArgs (a : Args) (p : Plan) (h : resolve a = .ok p) :
    ∃ ver tn tv, lookupVersion a.version = some ver ∧
      applyUserArgs (baseMerge a ver p.pyVer tn tv) a.buildArg =
        .ok p.buildArgs := by
  unfold resolve at h
  cases hver : lookupVersion a.version with
  | none => rw [hver] at h; cases h
  | some ver =>
    rw [hver] at h
    cases ht : a.tag with
    | some t =>
      rw [ht] at h
      have h1 : (match parseTag t with
          | none => Except.error (ResolveError.badTag t)
          | some nv => mkPlanWithArgs a ver (pyVerOf a ver) (targetOf a ver)
              (dockerfileOf a ver) nv.1 nv.2 t) = Except.ok p := h
      cases hnv : parseTag t with
      | none => rw [hnv] at h1; cases h1
      | some nv =>
        rw [hnv] at h1
        have h2 : mkPlanWithArgs a ver (pyVerOf a ver) (targetOf a ver)
            (dockerfileOf a ver) nv.1 nv.2 t = .ok p := h1
        obtain ⟨hargs, -, -, -, -, -, hpy⟩ :=
          mkPlanWithArgs_ok _ _ _ _ _ _ _ _ _ h2
        exact ⟨ver, nv.1, nv.2, rfl, by rw [hpy]; exact hargs⟩
    | none =>
      rw [ht] at h
      have h2 : mkPlanWithArgs a ver (pyVerOf a ver) (targetOf a ver)
          (dockerfileOf a ver) a.name (tagVersionOf a ver)
          (a.name ++ ":" ++ tagVersionOf a ver) = .ok p := h
      obtain ⟨hargs, -, -, -, -, -, hpy⟩ :=
        mkPlanWithArgs_ok _ _ _ _ _ _ _ _ _ h2
      exact ⟨ver, _, _, rfl, by rw [hpy]; exact hargs⟩

theorem resolve_no_tag (a : Args) (p : Plan) (ver : VersionEntry)
    (ht : a.tag = none) (hv : lookupVersion a.version = some ver)
    (h : resolve a = .ok p) :
    p.tagName = a.name ∧ p.pyVer = pyVerOf a ver ∧
    p.tagVersion = tagVersionOf a ver ∧
    p.tag = p.tagName ++ ":" ++ p.tagVersion := by
  unfold resolve at h
  rw [hv, ht] at h
  have h2 : mkPlanWithArgs a ver (pyVerOf a ver) (targetOf a ver)
      (dockerfileOf a ver) a.name (tagVersionOf a ver)
      (a.name ++ ":" ++ tagVersionOf a ver) = .ok p := h
  obtain ⟨-, -, -, hn, htv, htg, hpy⟩ := mkPlanWithArgs_ok _ _ _ _ _ _ _ _ _ h2
  exact ⟨hn, hpy, htv, by rw [htg, hn, htv]⟩

/-! ### Concrete fixtures for witnesses -/

/-- The catalog entry for version key `1.6`. -/
def ver16 : VersionEntry :=
  { version := some "1.6-11", path := none, python_version := none,
    args :=
      [ ("indy_sdk_url", "https://codeload.github.com/hyperledger/indy-sdk/tar.gz/5a37407baaf756b3c4f5cac802717dc4a2bd1660"),
        ("indy_crypto_url", "https://codeload.github.com/hyperledger/indy-crypto/tar.gz/a2864642430064c6f00902e9b999cc6356eed9f1") ] }

/-- The plan resolved from `1.6` with no overrides. -/
def plan16 : Plan :=
  { target := "1.6", dockerfile := "1.6/Dockerfile.ubuntu",
    tagName := "bcgovimages/von-image", tagVersion := "py35-1.6-11",
    tag := "bcgovimages/von-image:py35-1.6-11",
    buildArgs :=
      [ ("indy_sdk_url", "https://codeload.github.com/hyperledger/indy-sdk/tar.gz/5a37407baaf756b3c4f5cac802717dc4a2bd1660"),
        ("indy_crypto_url", "https://codeload.github.com/hyperledger/indy-crypto/tar.gz/a2864642430064c6f00902e9b999cc6356eed9f1"),
        ("python_version", "3.5.5"),
        ("tag_name", "bcgovimages/von-image"),
        ("tag_version", "py35-1.6-11"),
        ("indy_build_flags", "--release") ],
    pyVer := "3.5.5" }

/-- Version `1.6` with the same `--build-arg` key given twice. -/
def args3 : Args :=
  { defaultArgs "1.6" with buildArg := ["FOO=1", "FOO=2"] }

/-- The plan resolved from `args3`: the duplicate key holds the last value. -/
def plan3 : Plan :=
  { plan16 with buildArgs := plan16.buildArgs ++ [("FOO", "2")] }

/-! ### Claims about the resolved mapping and tag -/

/-- C1: with version key `1.6` and no overrides, the resolved mapping holds
the catalog's `indy_sdk_url` and `indy_crypto_url` values together with
`python_version=3.5.5` and `indy_build_flags=--release`, and the computed
tag is `bcgovimages/von-image:py35-1.6-11`. -/
theorem claim_C1 :
    (resolve (defaultArgs "1.6")).map Plan.tag =
      .ok "bcgovimages/von-image:py35-1.6-11" ∧
    (resolve (defaultArgs "1.6")).map
        (fun p => getArg p.buildArgs "indy_sdk_url") =
      .ok (some "https://codeload.github.com/hyperledger/indy-sdk/tar.gz/5a37407baaf756b3c4f5cac802717dc4a2bd1660") ∧
    (resolve (defaultArgs "1.6")).map
        (fun p => getArg p.buildArgs "indy_crypto_url") =
      .ok (some "https://codeload.github.com/hyperledger/indy-crypto/tar.gz/a2864642430064c6f00902e9b999cc6356eed9f1") ∧
    (resolve (defaultArgs "1.6")).map
        (fun p => getArg p.buildArgs "python_version") = .ok (some "3.5.5") ∧
    (resolve (defaultArgs "1.6")).map
        (fun p => getArg p.buildArgs "indy_build_flags") =
      .ok (some "--release") :=
  ⟨rfl, rfl, rfl, rfl, rfl⟩

/-- C2: with no explicit `--tag`, the produced tag is
`name:py<major><minor>-<label>[-debug]`, the major and minor digits being
the first and third characters of the resolved python version, the label
the catalog entry's version field (or the version key if absent), and the
`-debug` suffix present exactly when the debug flag is set. -/
theorem claim_C2 (a : Args) (p : Plan) (e : VersionEntry)
    (ht : a.tag = none) (he : lookupVersion a.version = some e)
    (hr : resolve a = .ok p) :
    p.tag = a.name ++ ":" ++ ("py" ++ p.pyVer.take 1 ++
      (p.pyVer.drop 2).take 1 ++ "-" ++ e.version.getD a.version ++
      (if a.debug then "-debug" else "")) := by
  obtain ⟨hn, hpy, htv, htag⟩ := resolve_no_tag a p e ht he hr
  rw [htag, hn, htv, hpy]
  rfl

/-- C2 witness: the tag formula evaluated for version `1.6` with defaults. -/
theorem claim_C2_witness :
    plan16.tag = (defaultArgs "1.6").name ++ ":" ++
      ("py" ++ plan16.pyVer.take 1 ++ (plan16.pyVer.drop 2).take 1 ++ "-" ++
        ver16.version.getD (defaultArgs "1.6").version ++
        (if (defaultArgs "1.6").debug then "-debug" else "")) :=
  claim_C2 (defaultArgs "1.6") plan16 ver16 rfl rfl rfl

/-- C3: the merged mapping gives later writes priority; in particular when
the user `--build-arg` list contains two tokens with the same key (and no
later token with that key), the final mapping holds the value of the last
one. -/
theorem claim_C3 (a : Args) (p : Plan) (k v1 v2 t1 t2 : String)
    (l1 l2 l3 : List String)
    (hargs : a.buildArg = l1 ++ (t1 :: (l2 ++ (t2 :: l3))))
    (h1 : parseBuildArg t1 = some (k, v1))
    (h2 : parseBuildArg t2 = some (k, v2))
    (h3 : ∀ t ∈ l3, ∀ kv, parseBuildArg t = some kv → kv.1 ≠ k)
    (hr : resolve a = .ok p) :
    getArg p.buildArgs k = some v2 := by
  obtain ⟨ver, tn, tv, -, happ⟩ := resolve_ok_buildArgs a p hr
  have hga := applyUserArgs_ok_getArg _ _ _ k happ
  have hl3 : userLast k l3 = none := userLast_eq_none k l3 h3
  have hu2 : userLast k (t2 :: l3) = some v2 := by
    simp only [userLast, hl3, h2]
    simp
  have hmid : userLast k (l2 ++ (t2 :: l3)) = some v2 := by
    rw [userLast_append, hu2]
  have ht1 : userLast k (t1 :: (l2 ++ (t2 :: l3))) = some v2 := by
    simp [userLast, hmid]
  have hall : userLast k a.buildArg = some v2 := by
    rw [hargs, userLast_append, ht1]
  rw [hall] at hga
  exact hga

/-- C3 witness: `--build-arg FOO=1 --build-arg FOO=2` resolves `FOO` to the
last value `2`. -/
theorem claim_C3_witness : getArg plan3.buildArgs "FOO" = some "2" :=
  claim_C3 args3 plan3 "FOO" "1" "2" "FOO=1" "FOO=2" [] [] [] rfl
    (by decide) (by decide) (by simp) (by decide)

/-! ### Claims about the template rewrite -/

/-- C4: a template line matching the `ARG` pattern whose name is in the
substitution mapping is rewritten to `ARG <name>=<mapped value>`; when the
name is absent the existing default from the line is kept as the value. -/
theorem claim_C4 (repl : List (String × String)) (lines : List String)
    (i : Nat) (l name dflt : String)
    (hl : lines[i]? = some l)
    (hm : matchArgLine l = some (name, dflt)) :
    (∀ v, getArg repl name = some v →
      (rewriteTemplate repl lines)[i]? =
        some ("ARG " ++ name ++ "=" ++ v)) ∧
    (getArg repl name = none →
      (rewriteTemplate repl lines)[i]? =
        some ("ARG " ++ name ++ "=" ++ dflt)) := by
  constructor
  · intro v hv
    rw [rewriteTemplate, List.getElem?_map, hl]
    simp [rewriteLine, hm, hv]
  · intro hv
    rw [rewriteTemplate, List.getElem?_map, hl]
    simp [rewriteLine, hm, hv]

/-- C4 witness: the line `ARG FOO=bar` with `FOO` mapped to `baz` becomes
`ARG FOO=baz`. -/
theorem claim_C4_witness :
    (rewriteTemplate [("FOO", "baz")] ["ARG FOO=bar"])[0]? =
      some ("ARG " ++ "FOO" ++ "=" ++ "baz") :=
  (claim_C4 [("FOO", "baz")] ["ARG FOO=bar"] 0 "ARG FOO=bar" "FOO" "bar"
    rfl (by decide)).1 "baz" (by decide)

/-- C5: the template rewrite preserves line count and order (the output is
the pointwise image of the input), and every line not matching the `ARG`
pattern is written back exactly as read. -/
theorem claim_C5 (repl : List (String × String)) (lines : List String) :
    (rewriteTemplate repl lines).length = lines.length ∧
    (∀ i : Nat, (rewriteTemplate repl lines)[i]? =
      (lines[i]?).map (rewriteLine repl)) ∧
    (∀ (i : Nat) (l : String), lines[i]? = some l → matchArgLine l = none →
      (rewriteTemplate repl lines)[i]? = some l) := by
  refine ⟨by simp [rewriteTemplate], fun i => ?_, fun i l hl hm => ?_⟩
  · rw [rewriteTemplate, List.getElem?_map]
  · rw [rewriteTemplate, List.getElem?_map, hl]
    simp [rewriteLine, hm]

/-- C5 witness: a two-line template with one non-matching line keeps its
length and passes the non-matching line through verbatim. -/
theorem claim_C5_witness :
    (rewriteTemplate [("FOO", "baz")] ["FROM x", "ARG FOO=bar"]).length = 2 ∧
    (rewriteTemplate [("FOO", "baz")] ["FROM x", "ARG FOO=bar"])[0]? =
      some "FROM x" :=
  ⟨(claim_C5 [("FOO", "baz")] ["FROM x", "ARG FOO=bar"]).1,
   (claim_C5 [("FOO", "baz")] ["FROM x", "ARG FOO=bar"]).2.2 0 "FROM x"
     rfl (by decide)⟩

/-! ### Claims about the execution sequence -/

theorem runSteps_exit_zero (res : Step → Nat) (l : List Step) :
    (runSteps res l).2 = 0 ↔ ∀ s ∈ l, res s = 0 := by
  induction l with
  | nil => simp [runSteps]
  | cons s rest ih =>
    by_cases h : res s = 0
    · simp [runSteps, h, ih]
    · simp [runSteps, h]

theorem runSteps_fail (res : Step → Nat) (l1 l2 : List Step) (s : Step)
    (h1 : ∀ t ∈ l1, res t = 0) (hs : res s ≠ 0) :
    runSteps res (l1 ++ s :: l2) = (l1 ++ [s], 1) := by
  induction l1 with
  | nil => simp [runSteps, hs]
  | cons t ts ih =>
    have ht : res t = 0 := h1 t (List.mem_cons_self t ts)
    have ih2 := ih (fun x hx => h1 x (List.mem_cons_of_mem t hx))
    simp [runSteps, ht, ih2]

/-- C6: in a non-dry build run, the first delegated step returning a
non-zero exit code stops the sequence (the steps attempted are exactly the
successful prefix plus the failing step) with process exit code 1, and the
exit code is 0 exactly when every planned step succeeds. -/
theorem claim_C6 (a : Args) (p : Plan) (files : String → List String)
    (res : Step → Nat) (hd : a.dryRun = false) (ho : a.output = none)
    (hr : resolve a = .ok p) :
    ((run a files res).exitCode = 0 ↔ ∀ s ∈ plannedSteps a, res s = 0) ∧
    (∀ l1 s l2, plannedSteps a = l1 ++ s :: l2 → (∀ t ∈ l1, res t = 0) →
      res s ≠ 0 →
      (run a files res).ran = l1 ++ [s] ∧
      (run a files res).exitCode = 1) := by
  have hrun : run a files res =
      { ran := (runSteps res (plannedSteps a)).1,
        exitCode := (runSteps res (plannedSteps a)).2,
        readSrc := none, wroteOutput := none } := by
    simp [run, hr, ho, hd]
  rw [hrun]
  constructor
  · exact runSteps_exit_zero res (plannedSteps a)
  · intro l1 s l2 hpl h1 hs
    rw [hpl, runSteps_fail res l1 l2 s h1 hs]
    exact ⟨rfl, rfl⟩

/-- C6 witness: with the main build failing, only the base and main builds
are attempted and the run exits 1. -/
theorem claim_C6_witness :
    (run (defaultArgs "1.6") (fun _ => [])
        (fun s => match s with | Step.mainBuild => 1 | _ => 0)).ran =
      [Step.baseBuild, Step.mainBuild] ∧
    (run (defaultArgs "1.6") (fun _ => [])
        (fun s => match s with | Step.mainBuild => 1 | _ => 0)).exitCode = 1 :=
  (claim_C6 (defaultArgs "1.6") plan16 (fun _ => [])
      (fun s => match s with | Step.mainBuild => 1 | _ => 0)
      rfl rfl (by decide)).2
    [Step.baseBuild] Step.mainBuild [Step.inspectSize] rfl
    (by decide) (by decide)

/-- C8: resolution failure is fatal before any build step: an unknown
version key exits immediately (argparse exits with code 2) with no step
attempted, and a `--build-arg` token without an `=` likewise aborts the run
with a non-zero exit code and no step attempted. -/
theorem claim_C8 (a : Args) (files : String → List String)
    (res : Step → Nat) :
    (lookupVersion a.version = none →
      run a files res =
        { ran := [], exitCode := 2, readSrc := none, wroteOutput := none }) ∧
    (∀ tok ∈ a.buildArg, '=' ∉ tok.data →
      (run a files res).ran = [] ∧ (run a files res).exitCode ≠ 0) := by
  constructor
  · intro hv
    have hres : resolve a = .error (.unknownVersion a.version) := by
      unfold resolve
      rw [hv]
    simp [run, hres]
  · intro tok htok hne
    cases hres : resolve a with
    | error e =>
      cases e <;> simp [run, hres]
    | ok p =>
      exfalso
      obtain ⟨ver, tn, tv, -, happ⟩ := resolve_ok_buildArgs a p hres
      exact applyUserArgs_ok_parses _ _ _ happ tok htok
        (parseBuildArg_none_of_no_sep tok hne)

/-- C8 witness: the unknown version key `nope` exits with code 2 and no
step, and the malformed token `BAD` aborts with no step attempted. -/
theorem claim_C8_witness :
    run (defaultArgs "nope") (fun _ => []) (fun _ => 0) =
      { ran := [], exitCode := 2, readSrc := none, wroteOutput := none } ∧
    (run { defaultArgs "1.6" with buildArg := ["BAD"] } (fun _ => [])
        (fun _ => 0)).ran = [] ∧
    (run { defaultArgs "1.6" with buildArg := ["BAD"] } (fun _ => [])
        (fun _ => 0)).exitCode ≠ 0 :=
  ⟨(claim_C8 (defaultArgs "nope") (fun _ => []) (fun _ => 0)).1 (by decide),
   ((claim_C8 { defaultArgs "1.6" with buildArg := ["BAD"] } (fun _ => [])
       (fun _ => 0)).2 "BAD" (by decide) (by decide)).1,
   ((claim_C8 { defaultArgs "1.6" with buildArg := ["BAD"] } (fun _ => [])
       (fun _ => 0)).2 "BAD" (by decide) (by decide)).2⟩

/-! ### Claims about the assembled build commands -/

theorem mem_renderBuildArgs (bargs : List (String × String)) (s : String)
    (h : s ∈ renderBuildArgs bargs) :
    s = "--build-arg" ∨ ∃ kv ∈ bargs, s = kv.1 ++ "=" ++ kv.2 := by
  induction bargs with
  | nil => simp [renderBuildArgs] at h
  | cons kv rest ih =>
    simp only [renderBuildArgs, List.mem_cons] at h
    rcases h with h | h | h
    · exact Or.inl h
    · exact Or.inr ⟨kv, List.mem_cons_self _ _, h⟩
    · rcases ih h with h | ⟨kv2, hm, he⟩
      · exact Or.inl h
      · exact Or.inr ⟨kv2, List.mem_cons_of_mem _ hm, he⟩

/-- C9: both build invocations start with the full `--build-arg` rendering
of the merged mapping; the `CACHEBUST` argument with the random integer is
appended to the main-image invocation, and (provided no merged entry or
path itself begins with `CACHEBUST=`) no token of the base-image invocation
carries a `CACHEBUST=` value. -/
theorem claim_C9 (p : Plan) (a : Args) (n : Nat) :
    ((cmdArgsBase p a).take (renderBuildArgs p.buildArgs).length =
        renderBuildArgs p.buildArgs ∧
      (cmdArgsMain p a n).take (renderBuildArgs p.buildArgs).length =
        renderBuildArgs p.buildArgs) ∧
    (∃ l1 l2, cmdArgsMain p a n =
      l1 ++ "--build-arg" :: ("CACHEBUST=" ++ toString n) :: l2) ∧
    ((∀ kv ∈ p.buildArgs,
        "CACHEBUST=".data.isPrefixOf (kv.1 ++ "=" ++ kv.2).data = false) →
      "CACHEBUST=".data.isPrefixOf (p.dockerfile ++ "_indy").data = false →
      "CACHEBUST=".data.isPrefixOf p.target.data = false →
      ∀ s ∈ cmdArgsBase p a, "CACHEBUST=".data.isPrefixOf s.data = false) := by
  refine ⟨⟨?_, ?_⟩, ?_, ?_⟩
  · have hb : cmdArgsBase p a = renderBuildArgs p.buildArgs ++
        ((if p.dockerfile ≠ "" then ["-f", p.dockerfile ++ "_indy"] else []) ++
          ((if a.noCache then ["--no-cache"] else []) ++
            ((if a.squash then ["--squash"] else []) ++
              (["-t", "local_indy_base"] ++ [p.target])))) := by
      simp [cmdArgsBase, List.append_assoc]
    rw [hb, List.take_left]
  · have hm : cmdArgsMain p a n = renderBuildArgs p.buildArgs ++
        ((if p.dockerfile ≠ "" then ["-f", p.dockerfile ++ "_von"] else []) ++
          ((if a.noCache then ["--no-cache"] else []) ++
            ((if a.squash then ["--squash"] else []) ++
              (["-t", p.tag] ++
                (["--build-arg", "CACHEBUST=" ++ toString n] ++
                  [p.target]))))) := by
      simp [cmdArgsMain, List.append_assoc]
    rw [hm, List.take_left]
  · refine ⟨renderBuildArgs p.buildArgs ++
      (if p.dockerfile ≠ "" then ["-f", p.dockerfile ++ "_von"] else []) ++
      (if a.noCache then ["--no-cache"] else []) ++
      (if a.squash then ["--squash"] else []) ++ ["-t", p.tag],
      [p.target], ?_⟩
    simp [cmdArgsMain, List.append_assoc]
  · intro hmap hdf htg s hs
    simp only [cmdArgsBase, List.mem_append] at hs
    rcases hs with ((((hs | hs) | hs) | hs) | hs) | hs
    · rcases mem_renderBuildArgs _ _ hs with h | ⟨kv, hm, he⟩
      · rw [h]; decide
      · rw [he]; exact hmap kv hm
    · by_cases hc : p.dockerfile ≠ ""
      · simp only [if_pos hc, List.mem_cons, List.mem_singleton] at hs
        rcases hs with h | h | h
        · rw [h]; decide
        · rw [h]; exact hdf
        · cases h
      · simp [if_neg hc] at hs
    · by_cases hc : a.noCache
      · simp only [if_pos hc, List.mem_singleton] at hs
        rw [hs]; decide
      · simp [if_neg hc] at hs
    · by_cases hc : a.squash
      · simp only [if_pos hc, List.mem_singleton] at hs
        rw [hs]; decide
      · simp [if_neg hc] at hs
    · simp only [List.mem_cons, List.mem_singleton] at hs
      rcases hs with h | h | h
      · rw [h]; decide
      · rw [h]; decide
      · cases h
    · simp only [List.mem_singleton] at hs
      rw [hs]; exact htg

/-- C9 witness: for the resolved `1.6` plan, the base invocation starts
with the rendered mapping and its `local_indy_base` token carries no
`CACHEBUST=` value. -/
theorem claim_C9_witness :
    (cmdArgsBase plan16 (defaultArgs "1.6")).take
        (renderBuildArgs plan16.buildArgs).length =
      renderBuildArgs plan16.buildArgs ∧
    "CACHEBUST=".data.isPrefixOf "local_indy_base".data = false :=
  ⟨(claim_C9 plan16 (defaultArgs "1.6") 7).1.1,
   (claim_C9 plan16 (defaultArgs "1.6") 7).2.2 (by decide) (by decide)
     (by decide) "local_indy_base" (by decide)⟩

/-! ### Claims about template-output mode -/

/-- C10: with `--output`, the run writes the rewritten template and exits 0
without delegating any external step; with `--test` the source template is
`<target>/Dockerfile.test`, otherwise with `--s2i` it is
`<target>/Dockerfile.s2i`, and in those two cases the substitution mapping
is exactly `base_image ↦ <full tag>`; otherwise the resolved Dockerfile is
rewritten with the merged build-argument mapping. -/
theorem claim_C10 (a : Args) (p : Plan) (files : String → List String)
    (res : Step → Nat) (o : String) (ho : a.output = some o)
    (hr : resolve a = .ok p) :
    (run a files res).ran = [] ∧ (run a files res).exitCode = 0 ∧
    (a.test = true →
      (run a files res).readSrc = some (p.target ++ "/Dockerfile.test") ∧
      (run a files res).wroteOutput = some (o,
        rewriteTemplate [("base_image", p.tag)]
          (files (p.target ++ "/Dockerfile.test")))) ∧
    (a.test = false → a.s2i = true →
      (run a files res).readSrc = some (p.target ++ "/Dockerfile.s2i") ∧
      (run a files res).wroteOutput = some (o,
        rewriteTemplate [("base_image", p.tag)]
          (files (p.target ++ "/Dockerfile.s2i")))) ∧
    (a.test = false → a.s2i = false →
      (run a files res).readSrc = some p.dockerfile ∧
      (run a files res).wroteOutput = some (o,
        rewriteTemplate p.buildArgs (files p.dockerfile))) := by
  cases htest : a.test <;> cases hs2i : a.s2i <;>
    simp [run, hr, ho, htest, hs2i]

/-- C10 witness: `--output` on version `1.6` with neither `--test` nor
`--s2i` delegates nothing, exits 0, and reads the resolved Dockerfile. -/
theorem claim_C10_witness :
    (run { defaultArgs "1.6" with output := some "out" } (fun _ => [])
        (fun _ => 0)).ran = [] ∧
    (run { defaultArgs "1.6" with output := some "out" } (fun _ => [])
        (fun _ => 0)).exitCode = 0 ∧
    (run { defaultArgs "1.6" with output := some "out" } (fun _ => [])
        (fun _ => 0)).readSrc = some plan16.dockerfile :=
  ⟨(claim_C10 { defaultArgs "1.6" with output := some "out" } plan16
      (fun _ => []) (fun _ => 0) "out" rfl (by decide)).1,
   (claim_C10 { defaultArgs "1.6" with output := some "out" } plan16
      (fun _ => []) (fun _ => 0) "out" rfl (by decide)).2.1,
   ((claim_C10 { defaultArgs "1.6" with output := some "out" } plan16
      (fun _ => []) (fun _ => 0) "out" rfl (by decide)).2.2.2.2 rfl rfl).1⟩

end VonImage
